import Mathlib

/-!
Verification development for the saf-visanet-connector security core.

The JavaScript source (src/config/xpay-token-config, src/config/webhook-handler,
src/config/message-encryption-config) is shallowly embedded below.  Pure string
manipulation done through JavaScript builtins (template literals on numbers,
String.prototype.split, parseInt) is modelled by executable Lean functions;
cryptographic primitives (SHA-256, RSA sign/verify, HMAC-SHA256, JWE) are
abstracted as function parameters, since they live outside the repository.
JavaScript exceptions inside the try blocks of the validators are modelled with
Except; the catch clauses that convert them to a false result are explicit
wrapper functions.
-/

/-- ASCII digit character for a value below ten, as produced by JavaScript
number-to-string conversion. -/
def digitChar (n : Nat) : Char := Char.ofNat (48 + n)

/-- Fuel-driven digit extraction, least significant digit first.  The fuel
argument makes the recursion structural so concrete instances reduce inside
the kernel; with fuel above the number it never runs out. -/
def natToDecRevAux : Nat → Nat → List Char
  | 0, _ => []
  | fuel + 1, n =>
    if n < 10 then [digitChar n]
    else digitChar (n % 10) :: natToDecRevAux fuel (n / 10)

/-- Decimal digits of a natural number, least significant first.  Models the
digit run emitted by a JavaScript template literal on a non-negative integer. -/
def natToDecRev (n : Nat) : List Char := natToDecRevAux (n + 1) n

/-- Decimal string of a natural number: the model of the JavaScript template
literal interpolation of a non-negative integer timestamp. -/
def natToDec (n : Nat) : String := ⟨(natToDecRev n).reverse⟩

/-- Numeric value of an ASCII digit character. -/
def digitVal (c : Char) : Nat := c.toNat - 48

/-- Parse the leading run of decimal digits of a character list; none when the
list does not start with a digit.  This is the digit-consuming core of
JavaScript parseInt, which stops at the first non-digit character. -/
def parseLeadingNat (l : List Char) : Option Nat :=
  let ds := l.takeWhile (fun c => c.isDigit)
  if ds.isEmpty then none
  else some (ds.foldl (fun acc c => acc * 10 + digitVal c) 0)

/-- Character-list core of the parseInt model: an optional sign followed by a
leading digit run, none standing for NaN. -/
def parseIntChars : List Char → Option Int
  | [] => none
  | c :: rest =>
    if c = '-' then (parseLeadingNat rest).map (fun n => -(n : Int))
    else if c = '+' then (parseLeadingNat rest).map (fun n => (n : Int))
    else (parseLeadingNat (c :: rest)).map (fun n => (n : Int))

/-- Model of JavaScript parseInt on the strings that reach it here (no leading
whitespace, base 10). -/
def parseIntJS (s : String) : Option Int := parseIntChars s.data

/-- Split a character list at every occurrence of the separator, keeping empty
segments, as JavaScript String.prototype.split does. -/
def splitList (sep : Char) : List Char → List (List Char)
  | [] => [[]]
  | c :: cs =>
    if c = sep then [] :: splitList sep cs
    else
      match splitList sep cs with
      | [] => [[c]]
      | h :: t => (c :: h) :: t

/-- Model of JavaScript String.prototype.split with a single-character
separator. -/
def splitJS (sep : Char) (s : String) : List String :=
  (splitList sep s.data).map (fun l => ⟨l⟩)

theorem digitChar_isDigit {m : Nat} (h : m < 10) : (digitChar m).isDigit = true := by
  interval_cases m <;> decide

theorem digitVal_digitChar {m : Nat} (h : m < 10) : digitVal (digitChar m) = m := by
  interval_cases m <;> decide

theorem isDigit_ne_colon {c : Char} (h : c.isDigit = true) : c ≠ ':' := by
  intro heq; subst heq; exact absurd h (by decide)

theorem isDigit_ne_minus {c : Char} (h : c.isDigit = true) : c ≠ '-' := by
  intro heq; subst heq; exact absurd h (by decide)

theorem isDigit_ne_plus {c : Char} (h : c.isDigit = true) : c ≠ '+' := by
  intro heq; subst heq; exact absurd h (by decide)

theorem natToDecRevAux_spec :
    ∀ fuel n, n < fuel →
      natToDecRevAux fuel n ≠ []
      ∧ (∀ c ∈ natToDecRevAux fuel n, c.isDigit = true)
      ∧ (natToDecRevAux fuel n).foldr (fun c a => a * 10 + digitVal c) 0 = n := by
  intro fuel
  induction fuel with
  | zero => intro n h; omega
  | succ fuel ih =>
    intro n _h
    simp only [natToDecRevAux]
    split
    · next h10 =>
      refine ⟨by simp, ?_, ?_⟩
      · intro c hc
        simp only [List.mem_singleton] at hc
        subst hc
        exact digitChar_isDigit h10
      · simp [digitVal_digitChar h10]
    · next h10 =>
      have hdiv : n / 10 < fuel := by
        have h1 : n / 10 < n := Nat.div_lt_self (by omega) (by omega)
        omega
      obtain ⟨hne, hdig, hfold⟩ := ih (n / 10) hdiv
      refine ⟨by simp, ?_, ?_⟩
      · intro c hc
        rcases List.mem_cons.mp hc with h1 | h2
        · subst h1
          exact digitChar_isDigit (Nat.mod_lt _ (by omega))
        · exact hdig c h2
      · simp only [List.foldr_cons, hfold, digitVal_digitChar (Nat.mod_lt n (by omega))]
        omega

theorem natToDecRev_ne_nil (n : Nat) : natToDecRev n ≠ [] :=
  (natToDecRevAux_spec (n + 1) n (by omega)).1

theorem natToDecRev_digits (n : Nat) : ∀ c ∈ natToDecRev n, c.isDigit = true :=
  (natToDecRevAux_spec (n + 1) n (by omega)).2.1

theorem foldr_natToDecRev (n : Nat) :
    (natToDecRev n).foldr (fun c a => a * 10 + digitVal c) 0 = n :=
  (natToDecRevAux_spec (n + 1) n (by omega)).2.2

theorem takeWhile_of_forall {α : Type} {p : α → Bool} :
    ∀ l : List α, (∀ a ∈ l, p a = true) → l.takeWhile p = l := by
  intro l
  induction l with
  | nil => intro _; rfl
  | cons c cs ih =>
    intro h
    simp [List.takeWhile_cons, h c (List.mem_cons_self c cs),
      ih (fun a ha => h a (List.mem_cons_of_mem c ha))]

theorem natToDec_data (n : Nat) : (natToDec n).data = (natToDecRev n).reverse := rfl

theorem natToDec_digits (n : Nat) : ∀ c ∈ (natToDec n).data, c.isDigit = true := by
  intro c hc
  rw [natToDec_data, List.mem_reverse] at hc
  exact natToDecRev_digits n c hc

theorem colon_not_mem_natToDec (n : Nat) : ':' ∉ (natToDec n).data := by
  intro hc
  exact absurd (natToDec_digits n ':' hc) (by decide)

theorem parseLeadingNat_natToDec (n : Nat) :
    parseLeadingNat (natToDec n).data = some n := by
  unfold parseLeadingNat
  rw [natToDec_data]
  have hall : ∀ c ∈ (natToDecRev n).reverse, c.isDigit = true := by
    intro c hc
    exact natToDecRev_digits n c (List.mem_reverse.mp hc)
  rw [takeWhile_of_forall _ hall]
  have hne : (natToDecRev n).reverse ≠ [] := by
    simp [natToDecRev_ne_nil n]
  simp [List.isEmpty_iff, hne, List.foldl_reverse, foldr_natToDecRev n]

theorem parseIntJS_natToDec (n : Nat) : parseIntJS (natToDec n) = some (n : Int) := by
  have hparse := parseLeadingNat_natToDec n
  unfold parseIntJS
  cases hdata : (natToDec n).data with
  | nil => exact absurd (by simpa [natToDec_data] using hdata) (by simp [natToDecRev_ne_nil n])
  | cons c cs =>
    have hc : c.isDigit = true := by
      apply natToDec_digits n
      rw [hdata]
      exact List.mem_cons_self c cs
    rw [hdata] at hparse
    rw [parseIntChars, if_neg (isDigit_ne_minus hc), if_neg (isDigit_ne_plus hc), hparse]
    rfl

theorem splitList_no_sep {sep : Char} : ∀ {a : List Char}, sep ∉ a → splitList sep a = [a] := by
  intro a
  induction a with
  | nil => intro _; rfl
  | cons c cs ih =>
    intro h
    have hc : c ≠ sep := fun heq => h (heq ▸ List.mem_cons_self c cs)
    have hcs : sep ∉ cs := fun hmem => h (List.mem_cons_of_mem c hmem)
    simp only [splitList, if_neg (fun heq => hc heq)]
    rw [ih hcs]

theorem splitList_append {sep : Char} {b : List Char} :
    ∀ {a : List Char}, sep ∉ a → splitList sep (a ++ sep :: b) = a :: splitList sep b := by
  intro a
  induction a with
  | nil =>
    intro _
    simp [splitList]
  | cons c cs ih =>
    intro h
    have hc : c ≠ sep := fun heq => h (heq ▸ List.mem_cons_self c cs)
    have hcs : sep ∉ cs := fun hmem => h (List.mem_cons_of_mem c hmem)
    simp only [List.cons_append, splitList, if_neg (fun heq => hc heq), List.append_eq]
    rw [ih hcs]

theorem splitJS_token (ts sig : String) (hts : ':' ∉ ts.data) (hsig : ':' ∉ sig.data) :
    splitJS ':' ("xv2:" ++ ts ++ ":" ++ sig) = ["xv2", ts, sig] := by
  unfold splitJS
  have hdata : ("xv2:" ++ ts ++ ":" ++ sig).data
      = ['x', 'v', '2'] ++ ':' :: (ts.data ++ ':' :: sig.data) := by
    simp [String.data_append]
  rw [hdata]
  rw [splitList_append (by decide)]
  rw [splitList_append hts]
  rw [splitList_no_sep hsig]
  rfl

/-!
X-Pay-Token model (src/unnamed/part_003, class XPayTokenConfig).

The SHA-256 hex digest and the RSA-SHA256 signature with this instance's key
pair are abstracted as hashFn, sign and verify; `verify h s` models
crypto.createVerify over digest h against hex signature s with the loaded
public key.  Timestamps are Unix seconds: generation uses the current clock as
a natural number, validation compares against an integer clock `now`.
-/

/-- Model of XPayTokenConfig.generateXPayToken (part_003 lines 334-360): the
pre-hash string is timestamp, resourcePath, queryString and requestBody
concatenated with no separators, and the token is xv2:timestamp:signature. -/
def generateXPayToken (hashFn sign : String → String) (now : Nat)
    (resourcePath queryString requestBody : String) : String :=
  let preHashString := natToDec now ++ resourcePath ++ queryString ++ requestBody
  let hash := hashFn preHashString
  let signature := sign hash
  "xv2:" ++ natToDec now ++ ":" ++ signature

/-- Try-block of XPayTokenConfig.validateXPayToken (part_003 lines 401-443).
Returns ok false for a bad version or a stale timestamp; an undefined
signature segment makes the verify call throw, modelled as error.  When
parseInt yields NaN (none) the age comparison `age > 300` is false in
JavaScript, so validation proceeds to the signature check. -/
def validateXPayTokenBody (hashFn : String → String) (verify : String → String → Bool)
    (now : Int) (xPayToken resourcePath queryString requestBody : String) :
    Except String Bool :=
  let parts := splitJS ':' xPayToken
  let version := parts.get? 0
  let timestampSeg := parts.get? 1
  let signatureSeg := parts.get? 2
  if version ≠ some "xv2" then Except.ok false
  else
    let expired : Bool :=
      match timestampSeg.bind parseIntJS with
      | some t => decide (now - t > 300)
      | none => false
    if expired then Except.ok false
    else
      match signatureSeg with
      | none => Except.error "TypeError: undefined signature"
      | some signature =>
        let tsStr := match timestampSeg with
          | some s => s
          | none => "undefined"
        let preHashString := tsStr ++ resourcePath ++ queryString ++ requestBody
        Except.ok (verify (hashFn preHashString) signature)

/-- Model of XPayTokenConfig.validateXPayToken including its catch clause,
which converts any thrown error into the result false. -/
def validateXPayToken (hashFn : String → String) (verify : String → String → Bool)
    (now : Int) (xPayToken resourcePath queryString requestBody : String) : Bool :=
  match validateXPayTokenBody hashFn verify now xPayToken resourcePath queryString requestBody with
  | Except.ok b => b
  | Except.error _ => false

/-- On a well-formed token xv2:ts:sig whose signature segment has no colon,
validateXPayToken rejects exactly when now - ts > 300 and otherwise returns
the signature verification outcome over the reconstructed pre-hash string. -/
theorem validateXPayToken_wellformed (hashFn : String → String)
    (verify : String → String → Bool) (now : Int) (ts : Nat)
    (sig resourcePath queryString requestBody : String) (hsig : ':' ∉ sig.data) :
    validateXPayToken hashFn verify now ("xv2:" ++ natToDec ts ++ ":" ++ sig)
      resourcePath queryString requestBody
      = if now - (ts : Int) > 300 then false
        else verify (hashFn (natToDec ts ++ resourcePath ++ queryString ++ requestBody)) sig := by
  have hsplit := splitJS_token (natToDec ts) sig (colon_not_mem_natToDec ts) hsig
  by_cases h : now - (ts : Int) > 300
  · simp [validateXPayToken, validateXPayTokenBody, hsplit, parseIntJS_natToDec, h]
  · simp [validateXPayToken, validateXPayTokenBody, hsplit, parseIntJS_natToDec, h]

/-- C1 counterexample: with now = 1000, a token carrying timestamp 2000 lies
1000 seconds in the future, |now - ts| > 300, yet validateXPayToken accepts it
when the signature verifies: the age check `now - ts > 300` is one-sided and
never rejects future timestamps. -/
theorem xpay_future_timestamp_accepted :
    ((1000 : Int) - 2000).natAbs > 300
    ∧ validateXPayToken (fun s => s) (fun h s => s == h) 1000
        "xv2:2000:2000/p" "/p" "" "" = true := by
  decide

/-- C1 (amended): validateXPayToken rejects on the timestamp only when
now - ts > 300, i.e. only tokens whose timestamp is stale by more than 300
seconds; any token with now - ts <= 300 — including timestamps arbitrarily far
in the future — proceeds to the signature check regardless of skew. -/
theorem validateXPayToken_staleness_only (hashFn : String → String)
    (verify : String → String → Bool) (now : Int) (ts : Nat)
    (sig resourcePath queryString requestBody : String) (hsig : ':' ∉ sig.data) :
    (now - (ts : Int) > 300 →
      validateXPayToken hashFn verify now ("xv2:" ++ natToDec ts ++ ":" ++ sig)
        resourcePath queryString requestBody = false)
    ∧ (now - (ts : Int) ≤ 300 →
      validateXPayToken hashFn verify now ("xv2:" ++ natToDec ts ++ ":" ++ sig)
        resourcePath queryString requestBody
        = verify (hashFn (natToDec ts ++ resourcePath ++ queryString ++ requestBody)) sig) := by
  have hw := validateXPayToken_wellformed hashFn verify now ts sig
    resourcePath queryString requestBody hsig
  constructor
  · intro h
    rw [hw, if_pos h]
  · intro h
    rw [hw, if_neg (by omega)]

/-- Witness for the amended C1 theorem at concrete inputs: a token stale by
1900 seconds is rejected, and a token 1900 seconds in the future reaches the
signature check (here an always-true verifier) and is accepted. -/
theorem validateXPayToken_staleness_only_witness :
    validateXPayToken (fun s => s) (fun _ _ => true) 2000
      ("xv2:" ++ natToDec 100 ++ ":" ++ "s") "/p" "" "" = false
    ∧ validateXPayToken (fun s => s) (fun _ _ => true) 100
      ("xv2:" ++ natToDec 2000 ++ ":" ++ "s") "/p" "" "" = true := by
  constructor
  · exact (validateXPayToken_staleness_only (fun s => s) (fun _ _ => true) 2000 100
      "s" "/p" "" "" (by decide)).1 (by decide)
  · have h := (validateXPayToken_staleness_only (fun s => s) (fun _ _ => true) 100 2000
      "s" "/p" "" "" (by decide)).2 (by decide)
    rw [h]

/-- C2: verifying a freshly generated token with the same three inputs within
the 300-second window succeeds when the key-pair halves match (hver), and
verification with a different request body fails when the signature does not
verify over the altered pre-hash string (hver2). -/
theorem xpay_roundtrip (hashFn sign : String → String) (verify : String → String → Bool)
    (T : Nat) (now : Int) (resourcePath queryString requestBody requestBody2 : String)
    (hwindow : (now - (T : Int)).natAbs ≤ 300)
    (hsig : ':' ∉ (sign (hashFn (natToDec T ++ resourcePath ++ queryString ++ requestBody))).data)
    (hver : verify (hashFn (natToDec T ++ resourcePath ++ queryString ++ requestBody))
        (sign (hashFn (natToDec T ++ resourcePath ++ queryString ++ requestBody))) = true)
    (hver2 : verify (hashFn (natToDec T ++ resourcePath ++ queryString ++ requestBody2))
        (sign (hashFn (natToDec T ++ resourcePath ++ queryString ++ requestBody))) = false) :
    validateXPayToken hashFn verify now
      (generateXPayToken hashFn sign T resourcePath queryString requestBody)
      resourcePath queryString requestBody = true
    ∧ validateXPayToken hashFn verify now
      (generateXPayToken hashFn sign T resourcePath queryString requestBody)
      resourcePath queryString requestBody2 = false := by
  have hgen : generateXPayToken hashFn sign T resourcePath queryString requestBody
      = "xv2:" ++ natToDec T ++ ":"
        ++ sign (hashFn (natToDec T ++ resourcePath ++ queryString ++ requestBody)) := rfl
  have hnot : ¬ (now - (T : Int) > 300) := by omega
  constructor
  · rw [hgen, validateXPayToken_wellformed _ _ _ _ _ _ _ _ hsig, if_neg hnot, hver]
  · rw [hgen, validateXPayToken_wellformed _ _ _ _ _ _ _ _ hsig, if_neg hnot, hver2]

/-- Witness for C2 on the concrete scenario of the specification: path
/v1/pushfundstransactions, empty query, bodies differing only in the amount,
timestamp T = 1703001234 verified at now = T. -/
theorem xpay_roundtrip_witness :
    validateXPayToken (fun s => s)
      (fun h s => s == "s"
        && h == "1703001234/v1/pushfundstransactions\x7b\"amount\":100\x7d") 1703001234
      (generateXPayToken (fun s => s) (fun _ => "s") 1703001234
        "/v1/pushfundstransactions" "" "\x7b\"amount\":100\x7d")
      "/v1/pushfundstransactions" "" "\x7b\"amount\":100\x7d" = true
    ∧ validateXPayToken (fun s => s)
      (fun h s => s == "s"
        && h == "1703001234/v1/pushfundstransactions\x7b\"amount\":100\x7d") 1703001234
      (generateXPayToken (fun s => s) (fun _ => "s") 1703001234
        "/v1/pushfundstransactions" "" "\x7b\"amount\":100\x7d")
      "/v1/pushfundstransactions" "" "\x7b\"amount\":101\x7d" = false := by
  exact xpay_roundtrip (fun s => s) (fun _ => "s")
    (fun h s => s == "s"
      && h == "1703001234/v1/pushfundstransactions\x7b\"amount\":100\x7d")
    1703001234 1703001234 "/v1/pushfundstransactions" "" "\x7b\"amount\":100\x7d"
    "\x7b\"amount\":101\x7d" (by decide) (by decide) (by decide) (by decide)

/-!
Webhook handler model (src/config/webhook-handler.js, class WebhookHandler).

HMAC-SHA256 with the shared secret is the abstract parameter hmac; `hmac k m`
is the base64 digest of message m under key k.  The payload reaches the
validator already serialized (the code stringifies non-string payloads), so it
is modelled as the string payloadString.  crypto.timingSafeEqual throws when
the two buffers differ in length; that branch is the error case of the body,
turned into false by the catch clause of the wrapper.
-/

/-- Signature-comparison step of validateSignature viewed through the catch
clause: true exactly when the provided signature equals the expected
HMAC digest (a length mismatch makes timingSafeEqual throw, hence false). -/
def webhookHmacCheck (hmac : String → String → String)
    (sharedSecret payloadString signature timestamp : String) : Bool :=
  let signaturePayload := timestamp ++ "." ++ payloadString
  let expectedSignature := hmac sharedSecret signaturePayload
  if signature.length = expectedSignature.length then decide (signature = expectedSignature)
  else false

/-- Try-block of WebhookHandler.validateSignature (webhook-handler.js lines
132-186): reject when |now - timestamp| > 300 (NaN timestamps never satisfy
the comparison, so they proceed), then compare HMAC-SHA256 digests with
timingSafeEqual, whose length mismatch throws. -/
def validateSignatureBody (hmac : String → String → String) (sharedSecret : String)
    (now : Int) (payloadString signature timestamp : String) : Except String Bool :=
  let reject : Bool :=
    match parseIntJS timestamp with
    | some t => decide ((now - t).natAbs > 300)
    | none => false
  if reject then Except.ok false
  else
    let signaturePayload := timestamp ++ "." ++ payloadString
    let expectedSignature := hmac sharedSecret signaturePayload
    if signature.length = expectedSignature.length then
      Except.ok (decide (signature = expectedSignature))
    else Except.error "RangeError: input buffers must have the same byte length"

/-- Model of WebhookHandler.validateSignature including its catch clause,
which converts any thrown error into the result false. -/
def validateSignature (hmac : String → String → String) (sharedSecret : String)
    (now : Int) (payloadString signature timestamp : String) : Bool :=
  match validateSignatureBody hmac sharedSecret now payloadString signature timestamp with
  | Except.ok b => b
  | Except.error _ => false

/-- Model of WebhookHandler.generateSignature (webhook-handler.js lines
220-240).  A null or empty timestamp argument is falsy in JavaScript, so the
current clock is used instead; the result is the pair of base64 HMAC digest
and the timestamp string that was signed. -/
def generateSignature (hmac : String → String → String) (sharedSecret : String)
    (now : Nat) (payloadString : String) (timestamp : Option String) : String × String :=
  let ts := match timestamp with
    | some t => if t = "" then natToDec now else t
    | none => natToDec now
  let signaturePayload := ts ++ "." ++ payloadString
  (hmac sharedSecret signaturePayload, ts)

theorem natToDec_ne_empty (n : Nat) : natToDec n ≠ "" := by
  intro h
  apply natToDecRev_ne_nil n
  have hdata : (natToDec n).data = ([] : List Char) := by rw [h]
  rw [natToDec_data] at hdata
  simpa using hdata

theorem validateSignature_parsed (hmac : String → String → String)
    (sharedSecret : String) (now : Int) (payloadString signature tsStr : String)
    (t : Int) (hparse : parseIntJS tsStr = some t) :
    validateSignature hmac sharedSecret now payloadString signature tsStr
      = if (now - t).natAbs > 300 then false
        else webhookHmacCheck hmac sharedSecret payloadString signature tsStr := by
  by_cases h : (now - t).natAbs > 300
  · simp [validateSignature, validateSignatureBody, hparse, h]
  · by_cases hlen : signature.length = (hmac sharedSecret (tsStr ++ "." ++ payloadString)).length
    · simp [validateSignature, validateSignatureBody, webhookHmacCheck, hparse, h, hlen]
    · simp [validateSignature, validateSignatureBody, webhookHmacCheck, hparse, h, hlen]

theorem webhookHmacCheck_self (hmac : String → String → String)
    (sharedSecret payloadString tsStr : String) :
    webhookHmacCheck hmac sharedSecret payloadString
      (hmac sharedSecret (tsStr ++ "." ++ payloadString)) tsStr = true := by
  simp [webhookHmacCheck]

theorem webhookHmacCheck_of_ne (hmac : String → String → String)
    (sharedSecret payloadString signature tsStr : String)
    (h : signature ≠ hmac sharedSecret (tsStr ++ "." ++ payloadString)) :
    webhookHmacCheck hmac sharedSecret payloadString signature tsStr = false := by
  unfold webhookHmacCheck
  by_cases hlen : signature.length
      = (hmac sharedSecret (tsStr ++ "." ++ payloadString)).length
  · simp [hlen, h]
  · simp [hlen]

theorem validateSignature_of_sig_ne (hmac : String → String → String)
    (sharedSecret : String) (now : Int) (payloadString signature tsStr : String)
    (h : signature ≠ hmac sharedSecret (tsStr ++ "." ++ payloadString)) :
    validateSignature hmac sharedSecret now payloadString signature tsStr = false := by
  cases hp : parseIntJS tsStr with
  | none =>
    by_cases hlen : signature.length
        = (hmac sharedSecret (tsStr ++ "." ++ payloadString)).length
    · simp [validateSignature, validateSignatureBody, hp, hlen, h]
    · simp [validateSignature, validateSignatureBody, hp, hlen]
  | some t =>
    by_cases hskew : (now - t).natAbs > 300
    · simp [validateSignature, validateSignatureBody, hp, hskew]
    · by_cases hlen : signature.length
          = (hmac sharedSecret (tsStr ++ "." ++ payloadString)).length
      · simp [validateSignature, validateSignatureBody, hp, hskew, hlen, h]
      · simp [validateSignature, validateSignatureBody, hp, hskew, hlen]

/-- C3: validateSignature rejects whenever the absolute skew |now - timestamp|
exceeds 300 seconds — old and future timestamps symmetrically — and with skew
at most 300 (inclusive boundary, so 300 passes and 299 passes while 301 is
rejected by the first conjunct) it proceeds to the HMAC comparison, whose
outcome it returns. -/
theorem validateSignature_replay_window (hmac : String → String → String)
    (sharedSecret : String) (now : Int) (payloadString signature tsStr : String)
    (t : Int) (hparse : parseIntJS tsStr = some t) :
    ((now - t).natAbs > 300 →
      validateSignature hmac sharedSecret now payloadString signature tsStr = false)
    ∧ ((now - t).natAbs ≤ 300 →
      validateSignature hmac sharedSecret now payloadString signature tsStr
        = webhookHmacCheck hmac sharedSecret payloadString signature tsStr) := by
  have hv := validateSignature_parsed hmac sharedSecret now payloadString signature tsStr t hparse
  constructor
  · intro h
    rw [hv, if_pos h]
  · intro h
    rw [hv, if_neg (by omega)]

/-- Witness for C3 at now = 1000: timestamp 699 (301 s old) is rejected,
timestamp 1301 (301 s in the future) is rejected, and timestamps 700 and 701
(skews 300 and 299) proceed to the HMAC comparison. -/
theorem validateSignature_replay_window_witness :
    validateSignature (fun k m => k ++ m) "sec" 1000 "p" "x" "699" = false
    ∧ validateSignature (fun k m => k ++ m) "sec" 1000 "p" "x" "1301" = false
    ∧ validateSignature (fun k m => k ++ m) "sec" 1000 "p" "x" "700"
        = webhookHmacCheck (fun k m => k ++ m) "sec" "p" "x" "700"
    ∧ validateSignature (fun k m => k ++ m) "sec" 1000 "p" "x" "701"
        = webhookHmacCheck (fun k m => k ++ m) "sec" "p" "x" "701" := by
  refine ⟨?_, ?_, ?_, ?_⟩
  · exact (validateSignature_replay_window (fun k m => k ++ m) "sec" 1000 "p" "x" "699"
      699 (by decide)).1 (by decide)
  · exact (validateSignature_replay_window (fun k m => k ++ m) "sec" 1000 "p" "x" "1301"
      1301 (by decide)).1 (by decide)
  · exact (validateSignature_replay_window (fun k m => k ++ m) "sec" 1000 "p" "x" "700"
      700 (by decide)).2 (by decide)
  · exact (validateSignature_replay_window (fun k m => k ++ m) "sec" 1000 "p" "x" "701"
      701 (by decide)).2 (by decide)

/-- C4: a signature generated by generateSignature over timestamp t validates
against the same payload and timestamp while |now - t| <= 300, and the same
signature presented with timestamp t - 400 is rejected: either the shifted
timestamp falls outside the window, or the HMAC over the shifted signing
string differs (hne) and the comparison fails. -/
theorem webhook_sign_validate_roundtrip (hmac : String → String → String)
    (sharedSecret payloadString : String) (g : Nat) (now : Int) (t : Nat)
    (_h400 : 400 ≤ t)
    (hfresh : (now - (t : Int)).natAbs ≤ 300)
    (hne : hmac sharedSecret (natToDec (t - 400) ++ "." ++ payloadString)
        ≠ hmac sharedSecret (natToDec t ++ "." ++ payloadString)) :
    validateSignature hmac sharedSecret now payloadString
      (generateSignature hmac sharedSecret g payloadString (some (natToDec t))).1
      (natToDec t) = true
    ∧ validateSignature hmac sharedSecret now payloadString
      (generateSignature hmac sharedSecret g payloadString (some (natToDec t))).1
      (natToDec (t - 400)) = false := by
  have hsig : (generateSignature hmac sharedSecret g payloadString (some (natToDec t))).1
      = hmac sharedSecret (natToDec t ++ "." ++ payloadString) := by
    simp [generateSignature, natToDec_ne_empty t]
  constructor
  · rw [hsig, validateSignature_parsed hmac sharedSecret now payloadString _ _ _
      (parseIntJS_natToDec t), if_neg (by omega)]
    exact webhookHmacCheck_self hmac sharedSecret payloadString (natToDec t)
  · rw [hsig]
    by_cases hskew : (now - ((t - 400 : Nat) : Int)).natAbs > 300
    · rw [validateSignature_parsed hmac sharedSecret now payloadString _ _ _
        (parseIntJS_natToDec (t - 400)), if_pos hskew]
    · rw [validateSignature_parsed hmac sharedSecret now payloadString _ _ _
        (parseIntJS_natToDec (t - 400)), if_neg hskew]
      exact webhookHmacCheck_of_ne hmac sharedSecret payloadString _ _ (fun heq => hne (by rw [heq]))

/-- Witness for C4 on the concrete scenario of the specification: secret S,
the TRANSACTION_COMPLETED payload, timestamp 1000 verified at now = 1000, and
the same signature rejected at timestamp 600. -/
theorem webhook_sign_validate_roundtrip_witness :
    validateSignature (fun k m => k ++ m) "S"
      1000 "\x7b\"eventType\":\"TRANSACTION_COMPLETED\",\"data\":\x7b\"transactionId\":\"123\"\x7d\x7d"
      (generateSignature (fun k m => k ++ m) "S" 5
        "\x7b\"eventType\":\"TRANSACTION_COMPLETED\",\"data\":\x7b\"transactionId\":\"123\"\x7d\x7d"
        (some (natToDec 1000))).1
      (natToDec 1000) = true
    ∧ validateSignature (fun k m => k ++ m) "S"
      1000 "\x7b\"eventType\":\"TRANSACTION_COMPLETED\",\"data\":\x7b\"transactionId\":\"123\"\x7d\x7d"
      (generateSignature (fun k m => k ++ m) "S" 5
        "\x7b\"eventType\":\"TRANSACTION_COMPLETED\",\"data\":\x7b\"transactionId\":\"123\"\x7d\x7d"
        (some (natToDec 1000))).1
      (natToDec (1000 - 400)) = false := by
  exact webhook_sign_validate_roundtrip (fun k m => k ++ m) "S"
    "\x7b\"eventType\":\"TRANSACTION_COMPLETED\",\"data\":\x7b\"transactionId\":\"123\"\x7d\x7d"
    5 1000 1000 (by decide) (by decide) (by decide)

theorem validateXPayToken_short_token (hashFn : String → String)
    (verify : String → String → Bool) (now : Int)
    (token resourcePath queryString requestBody : String)
    (hlen : (splitJS ':' token).length < 3) :
    validateXPayToken hashFn verify now token resourcePath queryString requestBody = false := by
  have h2 : (splitJS ':' token)[2]? = none := by
    rw [List.getElem?_eq_none_iff]
    omega
  by_cases hv : (splitJS ':' token)[0]? = some "xv2"
  · cases hb : ((splitJS ':' token)[1]?).bind parseIntJS with
    | none => simp [validateXPayToken, validateXPayTokenBody, hv, hb, h2]
    | some t =>
      by_cases hex : now - t > 300
      · simp [validateXPayToken, validateXPayTokenBody, hv, hb, hex]
      · simp [validateXPayToken, validateXPayTokenBody, hv, hb, hex, h2]
  · simp [validateXPayToken, validateXPayTokenBody, hv]

/-- C7: every expected validation failure yields the boolean false and no
exception: a token with fewer than three colon-separated segments, a stale
token timestamp, a failing token signature check, a webhook timestamp outside
the 300-second window, a webhook signature of the wrong length (the path on
which timingSafeEqual throws and the catch clause answers false) and a
mismatched webhook signature all make validateXPayToken respectively
validateSignature return false. -/
theorem validation_failures_return_false :
    (∀ (hashFn : String → String) (verify : String → String → Bool) (now : Int)
       (token resourcePath queryString requestBody : String),
       (splitJS ':' token).length < 3 →
       validateXPayToken hashFn verify now token resourcePath queryString requestBody = false)
    ∧ (∀ (hashFn : String → String) (verify : String → String → Bool) (now : Int)
       (ts : Nat) (sig resourcePath queryString requestBody : String),
       ':' ∉ sig.data → now - (ts : Int) > 300 →
       validateXPayToken hashFn verify now ("xv2:" ++ natToDec ts ++ ":" ++ sig)
         resourcePath queryString requestBody = false)
    ∧ (∀ (hashFn : String → String) (verify : String → String → Bool) (now : Int)
       (ts : Nat) (sig resourcePath queryString requestBody : String),
       ':' ∉ sig.data →
       verify (hashFn (natToDec ts ++ resourcePath ++ queryString ++ requestBody)) sig = false →
       validateXPayToken hashFn verify now ("xv2:" ++ natToDec ts ++ ":" ++ sig)
         resourcePath queryString requestBody = false)
    ∧ (∀ (hmac : String → String → String) (sharedSecret : String) (now : Int)
       (payloadString signature tsStr : String) (t : Int),
       parseIntJS tsStr = some t → (now - t).natAbs > 300 →
       validateSignature hmac sharedSecret now payloadString signature tsStr = false)
    ∧ (∀ (hmac : String → String → String) (sharedSecret : String) (now : Int)
       (payloadString signature tsStr : String),
       signature.length ≠ (hmac sharedSecret (tsStr ++ "." ++ payloadString)).length →
       validateSignature hmac sharedSecret now payloadString signature tsStr = false)
    ∧ (∀ (hmac : String → String → String) (sharedSecret : String) (now : Int)
       (payloadString signature tsStr : String),
       signature ≠ hmac sharedSecret (tsStr ++ "." ++ payloadString) →
       validateSignature hmac sharedSecret now payloadString signature tsStr = false) := by
  refine ⟨?_, ?_, ?_, ?_, ?_, ?_⟩
  · intro hashFn verify now token resourcePath queryString requestBody hlen
    exact validateXPayToken_short_token hashFn verify now token
      resourcePath queryString requestBody hlen
  · intro hashFn verify now ts sig resourcePath queryString requestBody hsig hold
    rw [validateXPayToken_wellformed hashFn verify now ts sig
      resourcePath queryString requestBody hsig, if_pos hold]
  · intro hashFn verify now ts sig resourcePath queryString requestBody hsig hver
    rw [validateXPayToken_wellformed hashFn verify now ts sig
      resourcePath queryString requestBody hsig]
    by_cases hold : now - (ts : Int) > 300
    · rw [if_pos hold]
    · rw [if_neg hold, hver]
  · intro hmac sharedSecret now payloadString signature tsStr t hparse hskew
    rw [validateSignature_parsed hmac sharedSecret now payloadString signature tsStr t hparse,
      if_pos hskew]
  · intro hmac sharedSecret now payloadString signature tsStr hlen
    exact validateSignature_of_sig_ne hmac sharedSecret now payloadString signature tsStr
      (fun heq => hlen (by rw [heq]))
  · intro hmac sharedSecret now payloadString signature tsStr hne
    exact validateSignature_of_sig_ne hmac sharedSecret now payloadString signature tsStr hne

/-- Witness for C7: each failure class evaluated at a concrete input — a
one-segment token, a token 900 seconds stale, a failing signature verifier, a
webhook timestamp 301 seconds old, a webhook signature of the wrong length,
and an equal-length but different webhook signature — each returning false. -/
theorem validation_failures_return_false_witness :
    validateXPayToken (fun s => s) (fun _ _ => true) 0 "xv2" "/p" "" "" = false
    ∧ validateXPayToken (fun s => s) (fun _ _ => true) 1000
        ("xv2:" ++ natToDec 100 ++ ":" ++ "s") "/p" "" "" = false
    ∧ validateXPayToken (fun s => s) (fun _ _ => false) 100
        ("xv2:" ++ natToDec 100 ++ ":" ++ "s") "/p" "" "" = false
    ∧ validateSignature (fun k m => k ++ m) "sec" 1000 "p" "x" "699" = false
    ∧ validateSignature (fun k m => k ++ m) "sec" 0 "p" "toolongsignature" "0" = false
    ∧ validateSignature (fun k m => k ++ m) "sec" 0 "p" "sec0.q" "0" = false := by
  refine ⟨?_, ?_, ?_, ?_, ?_, ?_⟩
  · exact validation_failures_return_false.1 (fun s => s) (fun _ _ => true) 0
      "xv2" "/p" "" "" (by decide)
  · exact validation_failures_return_false.2.1 (fun s => s) (fun _ _ => true) 1000
      100 "s" "/p" "" "" (by decide) (by decide)
  · exact validation_failures_return_false.2.2.1 (fun s => s) (fun _ _ => false) 100
      100 "s" "/p" "" "" (by decide) (by decide)
  · exact validation_failures_return_false.2.2.2.1 (fun k m => k ++ m) "sec" 1000
      "p" "x" "699" 699 (by decide) (by decide)
  · exact validation_failures_return_false.2.2.2.2.1 (fun k m => k ++ m) "sec" 0
      "p" "toolongsignature" "0" (by decide)
  · exact validation_failures_return_false.2.2.2.2.2 (fun k m => k ++ m) "sec" 0
      "p" "sec0.q" "0" (by decide)

/-!
Webhook event processing and Express middleware model
(src/config/webhook-handler.js lines 276-757).

Event data is modelled with the fields the handlers actually read; every
field of a JavaScript object may be absent, hence Option.  The middleware's
catch clause maps errors of processEvent to a 500 response, but every
operation of the model is total, so that branch is unreachable here.
-/

/-- Data payload of a webhook event, with the fields the per-event handlers
read into their results. -/
structure EventData where
  transactionId : Option String := none
  failureReason : Option String := none
  authorizationId : Option String := none
  declineReason : Option String := none
deriving DecidableEq

/-- Inbound webhook event: an eventType discriminator and its data payload. -/
structure WebhookEvent where
  eventType : String
  data : EventData
deriving DecidableEq

/-- Result record returned by processEvent and the per-event handlers. -/
structure EventResult where
  status : String
  message : String
  transactionId : Option String := none
  authorizationId : Option String := none
  reason : Option String := none
deriving DecidableEq

/-- Model of WebhookHandler.handleTransactionCompleted. -/
def handleTransactionCompleted (data : EventData) : EventResult :=
  { status := "processed", message := "Transaction completed successfully",
    transactionId := data.transactionId }

/-- Model of WebhookHandler.handleTransactionFailed. -/
def handleTransactionFailed (data : EventData) : EventResult :=
  { status := "processed", message := "Transaction failure recorded",
    transactionId := data.transactionId, reason := data.failureReason }

/-- Model of WebhookHandler.handleTransactionReversed. -/
def handleTransactionReversed (data : EventData) : EventResult :=
  { status := "processed", message := "Transaction reversal processed",
    transactionId := data.transactionId }

/-- Model of WebhookHandler.handleTransactionPending. -/
def handleTransactionPending (data : EventData) : EventResult :=
  { status := "processed", message := "Transaction marked as pending",
    transactionId := data.transactionId }

/-- Model of WebhookHandler.handleAuthorizationApproved. -/
def handleAuthorizationApproved (data : EventData) : EventResult :=
  { status := "processed", message := "Authorization approved",
    authorizationId := data.authorizationId }

/-- Model of WebhookHandler.handleAuthorizationDeclined. -/
def handleAuthorizationDeclined (data : EventData) : EventResult :=
  { status := "processed", message := "Authorization decline recorded",
    authorizationId := data.authorizationId, reason := data.declineReason }

/-- Result of the default branch of processEvent. -/
def ignoredResult : EventResult :=
  { status := "ignored", message := "Unknown event type" }

/-- Model of WebhookHandler.processEvent (webhook-handler.js lines 276-318):
the switch over eventType as a first-match chain, with the default branch
producing the ignored result. -/
def processEvent (event : WebhookEvent) : EventResult :=
  if event.eventType = "TRANSACTION_COMPLETED" then handleTransactionCompleted event.data
  else if event.eventType = "TRANSACTION_FAILED" then handleTransactionFailed event.data
  else if event.eventType = "TRANSACTION_REVERSED" then handleTransactionReversed event.data
  else if event.eventType = "TRANSACTION_PENDING" then handleTransactionPending event.data
  else if event.eventType = "AUTHORIZATION_APPROVED" then handleAuthorizationApproved event.data
  else if event.eventType = "AUTHORIZATION_DECLINED" then handleAuthorizationDeclined event.data
  else ignoredResult

/-- The six event types the switch of processEvent recognises. -/
def knownEventTypes : List String :=
  ["TRANSACTION_COMPLETED", "TRANSACTION_FAILED", "TRANSACTION_REVERSED",
   "TRANSACTION_PENDING", "AUTHORIZATION_APPROVED", "AUTHORIZATION_DECLINED"]

/-- Externally visible body of a middleware response: success carries
received true plus the processing result, failure carries the error field. -/
inductive MiddlewareBody where
  | success (result : EventResult)
  | failure (error : String)
deriving DecidableEq

/-- Externally visible middleware response: HTTP status and JSON body. -/
structure MiddlewareResponse where
  status : Nat
  body : MiddlewareBody
deriving DecidableEq

/-- Inbound request as the middleware sees it: the two validation headers
(absent headers are none) and the parsed JSON body. -/
structure WebhookRequest where
  signature : Option String
  timestamp : Option String
  body : WebhookEvent
deriving DecidableEq

/-- Model of WebhookHandler.middleware (webhook-handler.js lines 695-757):
missing or falsy headers give 401 with the missing-headers error body, a
failed validateSignature gives 401 with the invalid-signature error body, and
success gives 200 with the processEvent result.  stringifyBody models the
JSON.stringify the validator applies to the request body. -/
def middleware (hmac : String → String → String) (sharedSecret : String)
    (stringifyBody : WebhookEvent → String) (now : Int) (req : WebhookRequest) :
    MiddlewareResponse :=
  match req.signature, req.timestamp with
  | some signature, some timestamp =>
    if signature = "" ∨ timestamp = "" then
      { status := 401, body := MiddlewareBody.failure "Missing signature or timestamp" }
    else if validateSignature hmac sharedSecret now (stringifyBody req.body) signature timestamp then
      { status := 200, body := MiddlewareBody.success (processEvent req.body) }
    else
      { status := 401, body := MiddlewareBody.failure "Invalid signature" }
  | _, _ =>
    { status := 401, body := MiddlewareBody.failure "Missing signature or timestamp" }

/-- C8: processEvent on any event whose type is outside the six known kinds
returns the ignored result, status ignored with message Unknown event type,
and this result is not the output of any per-event handler (each handler
returns status processed), so no handler is invoked. -/
theorem processEvent_unknown_event_ignored (event : WebhookEvent)
    (h : event.eventType ∉ knownEventTypes) :
    processEvent event = ignoredResult
    ∧ (∀ d, processEvent event ≠ handleTransactionCompleted d)
    ∧ (∀ d, processEvent event ≠ handleTransactionFailed d)
    ∧ (∀ d, processEvent event ≠ handleTransactionReversed d)
    ∧ (∀ d, processEvent event ≠ handleTransactionPending d)
    ∧ (∀ d, processEvent event ≠ handleAuthorizationApproved d)
    ∧ (∀ d, processEvent event ≠ handleAuthorizationDeclined d) := by
  simp only [knownEventTypes, List.mem_cons, List.mem_singleton, not_or] at h
  obtain ⟨h1, h2, h3, h4, h5, h6, -⟩ := h
  have hres : processEvent event = ignoredResult := by
    simp [processEvent, h1, h2, h3, h4, h5, h6]
  refine ⟨hres, ?_, ?_, ?_, ?_, ?_, ?_⟩
  · intro d heq
    rw [hres] at heq
    exact absurd (congrArg EventResult.status heq)
      (by simp [ignoredResult, handleTransactionCompleted])
  · intro d heq
    rw [hres] at heq
    exact absurd (congrArg EventResult.status heq)
      (by simp [ignoredResult, handleTransactionFailed])
  · intro d heq
    rw [hres] at heq
    exact absurd (congrArg EventResult.status heq)
      (by simp [ignoredResult, handleTransactionReversed])
  · intro d heq
    rw [hres] at heq
    exact absurd (congrArg EventResult.status heq)
      (by simp [ignoredResult, handleTransactionPending])
  · intro d heq
    rw [hres] at heq
    exact absurd (congrArg EventResult.status heq)
      (by simp [ignoredResult, handleAuthorizationApproved])
  · intro d heq
    rw [hres] at heq
    exact absurd (congrArg EventResult.status heq)
      (by simp [ignoredResult, handleAuthorizationDeclined])

/-- Witness for C8: dispatching eventType NOT_A_REAL_EVENT with empty data
yields the ignored result. -/
theorem processEvent_unknown_event_ignored_witness :
    processEvent ⟨"NOT_A_REAL_EVENT", ⟨none, none, none, none⟩⟩ = ignoredResult :=
  (processEvent_unknown_event_ignored ⟨"NOT_A_REAL_EVENT", ⟨none, none, none, none⟩⟩
    (by decide)).1

/-- C6: two requests that both carry non-empty signature and timestamp
headers and both fail validation — req1 because its timestamp skew exceeds
300 seconds, req2 because its HMAC does not match although its timestamp is
within the window — receive identical responses: status 401 with the
invalid-signature error body, so the failing check is not distinguishable. -/
theorem middleware_uniform_rejection (hmac : String → String → String)
    (sharedSecret : String) (stringifyBody : WebhookEvent → String) (now : Int)
    (req1 req2 : WebhookRequest) (sig1 ts1 sig2 ts2 : String) (t1 t2 : Int)
    (hs1 : req1.signature = some sig1) (ht1 : req1.timestamp = some ts1)
    (hs1ne : sig1 ≠ "") (ht1ne : ts1 ≠ "")
    (hparse1 : parseIntJS ts1 = some t1) (hskew1 : (now - t1).natAbs > 300)
    (hs2 : req2.signature = some sig2) (ht2 : req2.timestamp = some ts2)
    (hs2ne : sig2 ≠ "") (ht2ne : ts2 ≠ "")
    (_hparse2 : parseIntJS ts2 = some t2) (_hskew2 : (now - t2).natAbs ≤ 300)
    (hsig2 : sig2 ≠ hmac sharedSecret (ts2 ++ "." ++ stringifyBody req2.body)) :
    middleware hmac sharedSecret stringifyBody now req1
      = middleware hmac sharedSecret stringifyBody now req2
    ∧ middleware hmac sharedSecret stringifyBody now req1
      = { status := 401, body := MiddlewareBody.failure "Invalid signature" } := by
  have hv1 : validateSignature hmac sharedSecret now (stringifyBody req1.body) sig1 ts1 = false := by
    rw [validateSignature_parsed hmac sharedSecret now (stringifyBody req1.body) sig1 ts1 t1 hparse1,
      if_pos hskew1]
  have hv2 : validateSignature hmac sharedSecret now (stringifyBody req2.body) sig2 ts2 = false :=
    validateSignature_of_sig_ne hmac sharedSecret now (stringifyBody req2.body) sig2 ts2 hsig2
  constructor <;>
    simp [middleware, hs1, ht1, hs2, ht2, hs1ne, ht1ne, hs2ne, ht2ne, hv1, hv2]

/-- Witness for C6: at now = 1000, a request with timestamp 699 (301 seconds
stale) and a request with fresh timestamp 1000 but wrong HMAC receive the
same 401 invalid-signature response. -/
theorem middleware_uniform_rejection_witness :
    middleware (fun k m => k ++ m) "sec" (fun _ => "p") 1000
      ⟨some "x", some "699", ⟨"TRANSACTION_COMPLETED", ⟨none, none, none, none⟩⟩⟩
      = middleware (fun k m => k ++ m) "sec" (fun _ => "p") 1000
        ⟨some "y", some "1000", ⟨"TRANSACTION_COMPLETED", ⟨none, none, none, none⟩⟩⟩
    ∧ middleware (fun k m => k ++ m) "sec" (fun _ => "p") 1000
      ⟨some "x", some "699", ⟨"TRANSACTION_COMPLETED", ⟨none, none, none, none⟩⟩⟩
      = { status := 401, body := MiddlewareBody.failure "Invalid signature" } :=
  middleware_uniform_rejection (fun k m => k ++ m) "sec" (fun _ => "p") 1000
    ⟨some "x", some "699", ⟨"TRANSACTION_COMPLETED", ⟨none, none, none, none⟩⟩⟩
    ⟨some "y", some "1000", ⟨"TRANSACTION_COMPLETED", ⟨none, none, none, none⟩⟩⟩
    "x" "699" "y" "1000" 699 1000 rfl rfl (by decide) (by decide) (by decide)
    (by decide) rfl rfl (by decide) (by decide) (by decide) (by decide) (by decide)

/-!
Message-level encryption model (src/config/message-encryption-config.js,
class MessageEncryptionConfig).

JavaScript values handled by the encryptor are modelled by a small JSON value
type; objects are association lists with distinct keys.  JSON.stringify, JWE
encryption (node-jose createEncrypt with RSA-OAEP-256 and A256GCM under the
configured keyId) and JWE decryption plus JSON.parse are abstract function
parameters; decryption failures are the error case of an Except, matching the
throw of the wrapped error.  When no key is loaded the source skips the
cryptographic call entirely and returns its argument.
-/

/-- JSON value as handled by the encryptor. -/
inductive Json where
  | null
  | bool (b : Bool)
  | num (n : Int)
  | str (s : String)
  | arr (elems : List Json)
  | obj (fields : List (String × Json))

/-- JavaScript truthiness of a JSON value: null, false, 0 and the empty
string are falsy, every other value is truthy. -/
def jsTruthy : Json → Bool
  | Json.null => false
  | Json.bool b => b
  | Json.num n => decide (n ≠ 0)
  | Json.str s => decide (s ≠ "")
  | Json.arr _ => true
  | Json.obj _ => true

/-- Model of MessageEncryptionConfig.encryptPayload (lines 187-227).  With no
encryption key loaded the function logs a warning and returns the payload
itself; with a key it returns the compact JWE string of the serialized
payload.  The result type is the JavaScript value union of both shapes. -/
def encryptPayload (stringify : Json → String)
    (jweEncrypt : String → String → String → String)
    (encryptionKey : Option String) (keyId : String) (payload : Json) : Json :=
  match encryptionKey with
  | none => payload
  | some key => Json.str (jweEncrypt key keyId (stringify payload))

/-- Model of MessageEncryptionConfig.decryptPayload (lines 254-283).  With no
decryption key loaded the function logs and returns its argument unchanged;
with a key it decrypts and parses, wrapping any failure in the thrown
Failed-to-decrypt error. -/
def decryptPayload (jweDecrypt : String → Json → Except String String)
    (parseJson : String → Except String Json)
    (decryptionKey : Option String) (encryptedPayload : Json) : Except String Json :=
  match decryptionKey with
  | none => Except.ok encryptedPayload
  | some key =>
    match jweDecrypt key encryptedPayload with
    | Except.error e => Except.error ("Failed to decrypt payload: " ++ e)
    | Except.ok payloadString =>
      match parseJson payloadString with
      | Except.error e => Except.error ("Failed to decrypt payload: " ++ e)
      | Except.ok result => Except.ok result

/-- Property read request[field] on a JavaScript object modelled as an
association list. -/
def lookupField : List (String × Json) → String → Option Json
  | [], _ => none
  | (k, v) :: rest, key => if k = key then some v else lookupField rest key

/-- Model of delete request[field]. -/
def removeField : List (String × Json) → String → List (String × Json)
  | [], _ => []
  | (k, v) :: rest, key =>
    if k = key then removeField rest key else (k, v) :: removeField rest key

/-- Model of the assignment request[key] = v: overwrite in place when the key
exists, otherwise append the new binding. -/
def setField : List (String × Json) → String → Json → List (String × Json)
  | [], key, v => [(key, v)]
  | (k, w) :: rest, key, v =>
    if k = key then (k, v) :: rest else (k, w) :: setField rest key v

/-- Successive deletion of a list of fields. -/
def removeFields (request : List (String × Json)) (fields : List String) :
    List (String × Json) :=
  fields.foldl removeField request

/-- One iteration of the forEach of encryptSensitiveFields: a field whose
value is truthy is moved from the request into the collection of fields to
encrypt; absent or falsy fields leave both unchanged. -/
def collectStep (acc : List (String × Json) × List (String × Json)) (field : String) :
    List (String × Json) × List (String × Json) :=
  match lookupField acc.2 field with
  | some v => if jsTruthy v then (acc.1 ++ [(field, v)], removeField acc.2 field) else acc
  | none => acc

/-- Model of MessageEncryptionConfig.encryptSensitiveFields (lines 319-350):
collect and delete the truthy sensitive fields, then, when any were found,
store the encryption of the collected object under encryptedData. -/
def encryptSensitiveFields (stringify : Json → String)
    (jweEncrypt : String → String → String → String) (encryptionKey : Option String)
    (keyId : String) (request : List (String × Json)) (sensitiveFields : List String) :
    List (String × Json) :=
  let res := sensitiveFields.foldl collectStep ([], request)
  if res.1.isEmpty then res.2
  else setField res.2 "encryptedData"
    (encryptPayload stringify jweEncrypt encryptionKey keyId (Json.obj res.1))

/-- C5: evaluation of the code at the failing configuration — no encryption
key loaded.  encryptPayload returns the payload itself for every input, with
no marker of the skipped encryption in the result; the only signal is an
internal log warning, although the function's own documentation promises an
error when the key is missing. -/
theorem encryptPayload_missing_key_passthrough (stringify : Json → String)
    (jweEncrypt : String → String → String → String) (keyId : String) (payload : Json) :
    encryptPayload stringify jweEncrypt none keyId payload = payload := rfl

/-- C10: with no decryption key loaded, decryptPayload returns its input
unchanged for every input — however malformed — and never reaches the
decryption error path, so tamper detection cannot occur in that state. -/
theorem decryptPayload_missing_key_passthrough
    (jweDecrypt : String → Json → Except String String)
    (parseJson : String → Except String Json) (encryptedPayload : Json) :
    decryptPayload jweDecrypt parseJson none encryptedPayload
      = Except.ok encryptedPayload := rfl

theorem lookupField_removeField (req : List (String × Json)) (f g : String) :
    lookupField (removeField req f) g = if g = f then none else lookupField req g := by
  induction req with
  | nil => simp [lookupField, removeField]
  | cons kv rest ih =>
    obtain ⟨k, v⟩ := kv
    simp only [removeField]
    by_cases hk : k = f
    · rw [if_pos hk, ih]
      by_cases hg : g = f
      · rw [if_pos hg, if_pos hg]
      · rw [if_neg hg, if_neg hg, lookupField, if_neg (fun h : k = g => hg (h.symm.trans hk))]
    · rw [if_neg hk, lookupField]
      by_cases hkg : k = g
      · have hg : ¬ g = f := fun hgf => hk (hkg.trans hgf)
        rw [if_pos hkg, if_neg hg, lookupField, if_pos hkg]
      · rw [if_neg hkg, ih]
        by_cases hg : g = f
        · rw [if_pos hg, if_pos hg]
        · rw [if_neg hg, if_neg hg, lookupField, if_neg hkg]

theorem lookupField_removeFields (fields : List String) :
    ∀ (req : List (String × Json)) (key : String), lookupField req key = none →
      lookupField (removeFields req fields) key = none := by
  induction fields with
  | nil => intro req key h; exact h
  | cons f rest ih =>
    intro req key h
    have hstep : removeFields req (f :: rest) = removeFields (removeField req f) rest := rfl
    rw [hstep]
    apply ih
    rw [lookupField_removeField]
    by_cases hk : key = f
    · rw [if_pos hk]
    · rw [if_neg hk, h]

theorem setField_of_lookup_none :
    ∀ (obj : List (String × Json)) (key : String) (v : Json),
      lookupField obj key = none → setField obj key v = obj ++ [(key, v)] := by
  intro obj key v
  induction obj with
  | nil => intro _; rfl
  | cons kv rest ih =>
    obtain ⟨k, w⟩ := kv
    intro h
    simp only [lookupField] at h
    by_cases hk : k = key
    · rw [if_pos hk] at h
      cases h
    · rw [if_neg hk] at h
      simp only [setField, if_neg hk, ih h, List.cons_append]

theorem foldl_collectStep (fields : List String) :
    ∀ (fte req : List (String × Json)),
      (∀ f ∈ fields, ∃ v, lookupField req f = some v ∧ jsTruthy v = true) →
      fields.Nodup →
      fields.foldl collectStep (fte, req)
        = (fte ++ fields.map (fun f => (f, (lookupField req f).getD Json.null)),
           removeFields req fields) := by
  induction fields with
  | nil =>
    intro fte req _ _
    simp [removeFields]
  | cons f rest ih =>
    intro fte req hall hnodup
    obtain ⟨v, hv, htr⟩ := hall f (List.mem_cons_self f rest)
    have hstep : collectStep (fte, req) f = (fte ++ [(f, v)], removeField req f) := by
      simp [collectStep, hv, htr]
    rw [List.foldl_cons, hstep]
    have hfrest : f ∉ rest := (List.nodup_cons.mp hnodup).1
    have hrest : ∀ g ∈ rest,
        ∃ w, lookupField (removeField req f) g = some w ∧ jsTruthy w = true := by
      intro g hg
      obtain ⟨w, hw, htw⟩ := hall g (List.mem_cons_of_mem f hg)
      refine ⟨w, ?_, htw⟩
      rw [lookupField_removeField, if_neg (fun hgf : g = f => hfrest (hgf ▸ hg)), hw]
    rw [ih (fte ++ [(f, v)]) (removeField req f) hrest (List.nodup_cons.mp hnodup).2]
    have hmap : rest.map (fun g => (g, (lookupField (removeField req f) g).getD Json.null))
        = rest.map (fun g => (g, (lookupField req g).getD Json.null)) := by
      apply List.map_congr_left
      intro g hg
      rw [lookupField_removeField, if_neg (fun hgf : g = f => hfrest (hgf ▸ hg))]
    rw [hmap]
    have hrem : removeFields req (f :: rest) = removeFields (removeField req f) rest := rfl
    rw [hrem]
    simp [hv, List.append_assoc]

theorem foldl_collectStep_absent (fields : List String) :
    ∀ (fte req : List (String × Json)),
      (∀ f ∈ fields, lookupField req f = none) →
      fields.foldl collectStep (fte, req) = (fte, req) := by
  induction fields with
  | nil => intro fte req _; rfl
  | cons f rest ih =>
    intro fte req hall
    have hstep : collectStep (fte, req) f = (fte, req) := by
      simp [collectStep, hall f (List.mem_cons_self f rest)]
    rw [List.foldl_cons, hstep]
    exact ih fte req (fun g hg => hall g (List.mem_cons_of_mem f hg))

/-- C9 counterexample: the field cvv is present in the request, yet because
its value is the falsy empty string the source's truthiness test skips it —
the request is returned unchanged, the cvv key is not removed and no
encryptedData field is added, contradicting the claim for present fields. -/
theorem encryptSensitiveFields_falsy_field_skipped :
    encryptSensitiveFields (fun _ => "") (fun _ _ _ => "") none "kid"
        [("amount", Json.num 100), ("cvv", Json.str "")] ["cvv"]
      = [("amount", Json.num 100), ("cvv", Json.str "")]
    ∧ lookupField [("amount", Json.num 100), ("cvv", Json.str "")] "cvv"
      = some (Json.str "") := by
  constructor <;> rfl

/-- C9 (amended): when every listed field is present with a truthy value (the
source tests request[field] for truthiness, so falsy values such as the empty
string are skipped), encryptSensitiveFields removes exactly those keys, adds
the single encryptedData field holding the encryption of the collected
object, and leaves every non-listed field unchanged; when none of the listed
fields are present the request is returned unchanged with no encryptedData
added. -/
theorem encryptSensitiveFields_truthy_spec (stringify : Json → String)
    (jweEncrypt : String → String → String → String) (encryptionKey : Option String)
    (keyId : String) (request : List (String × Json)) (sensitiveFields : List String) :
    ((∀ f ∈ sensitiveFields, ∃ v, lookupField request f = some v ∧ jsTruthy v = true) →
     sensitiveFields ≠ [] →
     sensitiveFields.Nodup →
     lookupField request "encryptedData" = none →
     encryptSensitiveFields stringify jweEncrypt encryptionKey keyId request sensitiveFields
       = removeFields request sensitiveFields
         ++ [("encryptedData",
              encryptPayload stringify jweEncrypt encryptionKey keyId
                (Json.obj (sensitiveFields.map
                  (fun f => (f, (lookupField request f).getD Json.null)))))])
    ∧ ((∀ f ∈ sensitiveFields, lookupField request f = none) →
       encryptSensitiveFields stringify jweEncrypt encryptionKey keyId request sensitiveFields
         = request) := by
  constructor
  · intro hall hne hnodup henc
    unfold encryptSensitiveFields
    rw [foldl_collectStep sensitiveFields [] request hall hnodup]
    have hmapne : sensitiveFields.map
        (fun f => (f, (lookupField request f).getD Json.null)) ≠ [] := by
      simp [hne]
    have hrem : lookupField (removeFields request sensitiveFields) "encryptedData" = none :=
      lookupField_removeFields sensitiveFields request "encryptedData" henc
    simp only [List.nil_append]
    rw [if_neg (by simpa [List.isEmpty_iff] using hmapne)]
    rw [setField_of_lookup_none _ _ _ hrem]
  · intro hnone
    unfold encryptSensitiveFields
    rw [foldl_collectStep_absent sensitiveFields [] request hnone]
    rfl

/-- Witness for the amended C9 theorem: encrypting cardNumber and cvv of a
concrete request removes both keys and appends one encryptedData field, and a
request without the listed field is returned unchanged. -/
theorem encryptSensitiveFields_truthy_spec_witness :
    encryptSensitiveFields (fun _ => "ct") (fun _ _ _ => "ct") none "kid"
        [("amount", Json.num 100), ("cardNumber", Json.str "4111111111111111"),
         ("cvv", Json.str "123"), ("merchantId", Json.str "M1")]
        ["cardNumber", "cvv"]
      = removeFields
          [("amount", Json.num 100), ("cardNumber", Json.str "4111111111111111"),
           ("cvv", Json.str "123"), ("merchantId", Json.str "M1")]
          ["cardNumber", "cvv"]
        ++ [("encryptedData",
             encryptPayload (fun _ => "ct") (fun _ _ _ => "ct") none "kid"
               (Json.obj (["cardNumber", "cvv"].map
                 (fun f => (f, (lookupField
                   [("amount", Json.num 100), ("cardNumber", Json.str "4111111111111111"),
                    ("cvv", Json.str "123"), ("merchantId", Json.str "M1")] f).getD
                   Json.null)))))]
    ∧ encryptSensitiveFields (fun _ => "ct") (fun _ _ _ => "ct") none "kid"
        [("amount", Json.num 100)] ["cardNumber"]
      = [("amount", Json.num 100)] := by
  constructor
  · apply (encryptSensitiveFields_truthy_spec (fun _ => "ct") (fun _ _ _ => "ct") none "kid"
      [("amount", Json.num 100), ("cardNumber", Json.str "4111111111111111"),
       ("cvv", Json.str "123"), ("merchantId", Json.str "M1")]
      ["cardNumber", "cvv"]).1
    · intro f hf
      simp only [List.mem_cons, List.mem_singleton, List.not_mem_nil, or_false] at hf
      rcases hf with rfl | rfl
      · exact ⟨Json.str "4111111111111111", rfl, rfl⟩
      · exact ⟨Json.str "123", rfl, rfl⟩
    · simp
    · decide
    · rfl
  · apply (encryptSensitiveFields_truthy_spec (fun _ => "ct") (fun _ _ _ => "ct") none "kid"
      [("amount", Json.num 100)] ["cardNumber"]).2
    intro f hf
    simp only [List.mem_singleton] at hf
    subst hf
    rfl
